import Mathlib

/-!
Shallow embedding of `finance_tracker.py` (class `FinanceTracker`), a personal
finance tracker backed by a SQLite database with two tables:

  transactions(id, amount REAL, category TEXT, description TEXT,
               type TEXT CHECK(type IN ('income','expense')), date DATE, created_at)
  categories(id, name TEXT UNIQUE, type TEXT CHECK(type IN ('income','expense')),
             budget_limit REAL DEFAULT 0)

Modelling choices:
* SQLite REAL amounts are modelled as exact rationals `ℚ`; every arithmetic
  operation the program performs (SUM, subtraction, division, `* 100`) is
  mirrored exactly.
* A `DATE` value is the triple (year, month, day).  Python's `sqlite3` binds a
  `datetime.date` as the ISO string "YYYY-MM-DD", and SQLite compares such
  strings lexicographically, which for well-formed dates coincides with the
  lexicographic order on (year, month, day); `Date.le` implements that order.
  `strftime('%Y-%m', date) = ?` comparison is `sameMonth`.
  `datetime.now().date() - timedelta(days=days)` is `subDays` (repeated
  calendar predecessor), and `now.replace(day=1)` is `monthStart`.
* The database state is the pair of table contents (row lists, insertion
  order).  `id`/`created_at` columns play no role in any query and are omitted.
* Wall-clock `datetime.now()` is threaded as an explicit `now`/`today`
  argument to the operations that read it.
* A SQLite `CHECK` constraint violation raises `IntegrityError` in Python;
  fallible inserts return `Except String DB`.
-/

/-- Calendar date (year, month, day), the value bound for a SQLite DATE column. -/
structure Date where
  year : Nat
  month : Nat
  day : Nat
deriving DecidableEq

/-- SQLite comparison `a <= b` on DATE columns: lexicographic on the ISO string,
hence lexicographic on (year, month, day) for well-formed dates. -/
def Date.le (a b : Date) : Bool :=
  decide (a.year < b.year ∨ (a.year = b.year ∧
    (a.month < b.month ∨ (a.month = b.month ∧ a.day ≤ b.day))))

/-- SQLite `strftime('%Y-%m', d) = strftime('%Y-%m', now)`: same year and month. -/
def sameMonth (d now : Date) : Bool :=
  d.year == now.year && d.month == now.month

/-- Number of days in a month of the Gregorian calendar (as used by
`datetime.date` arithmetic). -/
def daysInMonth (y m : Nat) : Nat :=
  if m = 2 then (if y % 4 = 0 ∧ (y % 100 ≠ 0 ∨ y % 400 = 0) then 29 else 28)
  else if m = 4 ∨ m = 6 ∨ m = 9 ∨ m = 11 then 30
  else 31

/-- The calendar day before `d` (Gregorian). -/
def Date.pred (d : Date) : Date :=
  if 1 < d.day then ⟨d.year, d.month, d.day - 1⟩
  else if 1 < d.month then ⟨d.year, d.month - 1, daysInMonth d.year (d.month - 1)⟩
  else ⟨d.year - 1, 12, 31⟩

/-- Python `d - timedelta(days=n)`. -/
def subDays (d : Date) (n : Nat) : Date :=
  Date.pred^[n] d

/-- Python `now.replace(day=1)`: first day of the current month. -/
def monthStart (now : Date) : Date :=
  ⟨now.year, now.month, 1⟩

/-- Row of the `transactions` table (the columns the queries read). -/
structure Transaction where
  amount : ℚ
  category : String
  description : String
  type : String
  date : Date
deriving DecidableEq

/-- Row of the `categories` table (the columns the queries read). -/
structure Category where
  name : String
  type : String
  budget_limit : ℚ
deriving DecidableEq

/-- State of the database: contents of the two tables, in insertion order. -/
structure DB where
  transactions : List Transaction
  categories : List Category
deriving DecidableEq

/-- The freshly created (empty-tables) database. -/
def emptyDB : DB := ⟨[], []⟩

/-- The nine default category rows seeded by `setup_database`. -/
def default_categories : List Category :=
  [ ⟨"Salary", "income", 0⟩
  , ⟨"Freelance", "income", 0⟩
  , ⟨"Food", "expense", 500⟩
  , ⟨"Transport", "expense", 200⟩
  , ⟨"Entertainment", "expense", 150⟩
  , ⟨"Utilities", "expense", 300⟩
  , ⟨"Shopping", "expense", 400⟩
  , ⟨"Healthcare", "expense", 200⟩
  , ⟨"Rent", "expense", 1200⟩ ]

/-- SQLite `INSERT OR IGNORE INTO categories`: the row is appended unless a row
with the same (UNIQUE) name already exists, in which case the insert is
silently skipped. -/
def insertOrIgnore (cats : List Category) (c : Category) : List Category :=
  if cats.any (fun c0 => c0.name == c.name) then cats else cats ++ [c]

/-- `FinanceTracker.setup_database`: `CREATE TABLE IF NOT EXISTS` for both
tables (a no-op on the state model) followed by `INSERT OR IGNORE` of the nine
default categories. -/
def setup_database (db : DB) : DB :=
  { db with categories := default_categories.foldl insertOrIgnore db.categories }

/-- `FinanceTracker.add_transaction`: inserts one row into `transactions`.
The Python method itself performs no validation; the `CHECK(type IN
('income','expense'))` constraint of the table rejects any other type value,
and sqlite3 surfaces that as an `IntegrityError` propagated to the caller
(modelled as `Except.error`), leaving the table unchanged. -/
def add_transaction (db : DB) (amount : ℚ) (category description ttype : String)
    (date : Date) : Except String DB :=
  if ttype == "income" || ttype == "expense" then
    Except.ok { db with transactions :=
      db.transactions ++ [⟨amount, category, description, ttype, date⟩] }
  else
    Except.error "IntegrityError: CHECK constraint failed: type IN (income, expense)"

/-- SQL `SUM(amount)` over a list of transaction rows (0 for the empty list,
matching `COALESCE`/the Python default). -/
def sumAmounts (ts : List Transaction) : ℚ :=
  (ts.map Transaction.amount).sum

/-- Return value of `get_monthly_summary`. -/
structure MonthlySummary where
  income : ℚ
  expense : ℚ
  balance : ℚ
  savings_rate : ℚ
deriving DecidableEq

/-- SQL total for one `type` group of the monthly-summary query: sum of
`amount` over rows with `strftime('%Y-%m', date) = now` and the given type.
When the group is empty the query returns no row and the Python code leaves
the dictionary default 0, which equals the empty sum. -/
def monthlyTotal (db : DB) (now : Date) (ttype : String) : ℚ :=
  sumAmounts (db.transactions.filter (fun t => sameMonth t.date now && t.type == ttype))

/-- `FinanceTracker.get_monthly_summary`: groups the current month's
transactions by type, then computes `balance = income - expense` and
`savings_rate = balance / income * 100` if `income > 0` else 0. -/
def get_monthly_summary (db : DB) (now : Date) : MonthlySummary :=
  { income := monthlyTotal db now "income"
  , expense := monthlyTotal db now "expense"
  , balance := monthlyTotal db now "income" - monthlyTotal db now "expense"
  , savings_rate :=
      if 0 < monthlyTotal db now "income" then
        (monthlyTotal db now "income" - monthlyTotal db now "expense")
          / monthlyTotal db now "income" * 100
      else 0 }

/-- GROUP BY key extraction: the distinct values in first-occurrence order.
`seen` accumulates the keys already emitted. -/
def dedupFirstAux {α : Type} [DecidableEq α] : List α → List α → List α
  | [], _ => []
  | x :: xs, seen =>
      if x ∈ seen then dedupFirstAux xs seen else x :: dedupFirstAux xs (x :: seen)

/-- Distinct values of a list, keeping the first occurrence of each. -/
def dedupFirst {α : Type} [DecidableEq α] (l : List α) : List α :=
  dedupFirstAux l []

/-- Insert `a` into `l` before the first element `b` with `¬ le a b`
(insertion step of the sort modelling SQL ORDER BY). -/
def insertSorted {α : Type} (le : α → α → Bool) (a : α) : List α → List α
  | [] => [a]
  | b :: xs => if le a b then a :: b :: xs else b :: insertSorted le a xs

/-- Sort by the boolean relation `le` (stable insertion sort), modelling SQL
`ORDER BY`: the output is `le`-sorted and a permutation of the input; SQL
leaves the order of ties unspecified. -/
def sortBy {α : Type} (le : α → α → Bool) : List α → List α
  | [] => []
  | a :: xs => insertSorted le a (sortBy le xs)

/-- Row filter of the category-spending query:
`type = 'expense' AND date >= start_date`. -/
def spendFilter (start_date : Date) (t : Transaction) : Bool :=
  t.type == "expense" && Date.le start_date t.date

/-- WHERE clause of the category-spending query: the transaction rows with
`type = 'expense' AND date >= start_date`. -/
def spendRows (db : DB) (start_date : Date) : List Transaction :=
  db.transactions.filter (spendFilter start_date)

/-- GROUP BY category with `SUM(amount)` and `COUNT(*)` of the
category-spending query (group order before ORDER BY is unspecified in SQL;
first occurrence is used here). -/
def spendGrouped (db : DB) (start_date : Date) : List (String × ℚ × Nat) :=
  (dedupFirst ((spendRows db start_date).map Transaction.category)).map (fun c =>
    (c, sumAmounts ((spendRows db start_date).filter (fun t => t.category == c)),
     ((spendRows db start_date).filter (fun t => t.category == c)).length))

/-- `FinanceTracker.get_category_spending`: with
`start_date = today - timedelta(days=days)`, selects expense transactions with
`date >= start_date`, groups them by category with `SUM(amount)` and
`COUNT(*)`, and orders by total descending. -/
def get_category_spending (db : DB) (today : Date) (days : Nat) :
    List (String × ℚ × Nat) :=
  sortBy (fun a b => decide (b.2.1 ≤ a.2.1)) (spendGrouped db (subDays today days))

/-- Element of the list returned by `check_budgets`. -/
structure BudgetRow where
  category : String
  budget : ℚ
  spent : ℚ
  percentage : ℚ
  status : String
deriving DecidableEq

/-- ON condition of the budget query's LEFT JOIN, for category name `name`:
`t.category = name AND t.type = 'expense' AND t.date >= month_start`. -/
def budgetJoinFilter (name : String) (month_start : Date) (t : Transaction) : Bool :=
  t.category == name && t.type == "expense" && Date.le month_start t.date

/-- WHERE clause of the budget query: the category rows with
`c.type = 'expense' AND c.budget_limit > 0`. -/
def budgetCats (db : DB) : List Category :=
  db.categories.filter (fun c => c.type == "expense" && decide ((0 : ℚ) < c.budget_limit))

/-- LEFT JOIN of the budget query: each kept category row paired with each
transaction row matching the ON condition, or with `none` when no transaction
matches (the NULL row of an outer join). -/
def budgetJoined (db : DB) (month_start : Date) : List (Category × Option Transaction) :=
  (budgetCats db).flatMap (fun c =>
    if (db.transactions.filter (budgetJoinFilter c.name month_start)).isEmpty
    then [(c, none)]
    else (db.transactions.filter (budgetJoinFilter c.name month_start)).map
      (fun t => (c, some t)))

/-- Amount contributed by one joined row to `SUM(t.amount)`: a NULL row
contributes nothing (`COALESCE(SUM(t.amount), 0)` makes the empty sum 0). -/
def joinedAmount (r : Category × Option Transaction) : ℚ :=
  match r.2 with
  | some t => t.amount
  | none => 0

/-- GROUP BY `c.name, c.budget_limit` of the budget query with
`spent = COALESCE(SUM(t.amount), 0)` per group (group order before ORDER BY is
unspecified in SQL; first occurrence is used here). -/
def budgetGrouped (db : DB) (month_start : Date) : List (String × ℚ × ℚ) :=
  (dedupFirst ((budgetJoined db month_start).map (fun r => (r.1.name, r.1.budget_limit)))).map
    (fun k =>
      (k.1, k.2,
       (((budgetJoined db month_start).filter
           (fun r => r.1.name == k.1 && r.1.budget_limit == k.2)).map joinedAmount).sum))

/-- Status classification of the Python loop in `check_budgets`:
`"OVER BUDGET" if percentage > 100, "NEAR LIMIT" if percentage > 80, else "OK"`. -/
def classifyPercent (p : ℚ) : String :=
  if 100 < p then "OVER BUDGET"
  else if 80 < p then "NEAR LIMIT"
  else "OK"

/-- Body of the Python loop in `check_budgets`: builds the result dictionary
for one query row `(category, budget, spent)`, with
`percentage = spent / budget * 100 if budget > 0 else 0`. -/
def budgetRowOf (r : String × ℚ × ℚ) : BudgetRow :=
  { category := r.1
  , budget := r.2.1
  , spent := r.2.2
  , percentage := if (0 : ℚ) < r.2.1 then r.2.2 / r.2.1 * 100 else 0
  , status := classifyPercent (if (0 : ℚ) < r.2.1 then r.2.2 / r.2.1 * 100 else 0) }

/-- `FinanceTracker.check_budgets`: the SQL
`categories LEFT JOIN transactions ON (name match, expense, date >= month
start) WHERE c.type='expense' AND c.budget_limit>0 GROUP BY c.name,
c.budget_limit` with `spent = COALESCE(SUM(t.amount),0)`, ordered by
`spent / budget_limit` descending, followed by the Python loop computing
`percentage = spent / budget * 100 if budget > 0 else 0` and the status
classification. -/
def check_budgets (db : DB) (now : Date) : List BudgetRow :=
  (sortBy (fun a b => decide (b.2.2 / b.2.1 ≤ a.2.2 / a.2.1))
      (budgetGrouped db (monthStart now))).map budgetRowOf

/-- Database states reachable from a fresh store: `setup_database` on the
empty database followed by any sequence of successful `add_transaction` calls. -/
inductive Reachable : DB → Prop
  | init : Reachable (setup_database emptyDB)
  | step {db db' : DB} {amount : ℚ} {category description ttype : String} {date : Date} :
      Reachable db →
      add_transaction db amount category description ttype date = Except.ok db' →
      Reachable db'

deriving instance DecidableEq for Except

set_option maxRecDepth 100000

/-- Concrete calendar date used by the sample scenarios. -/
def sampleToday : Date := ⟨2026, 10, 12⟩

/-- Database state after `setup_database` on a fresh store and one successful
`add_transaction(600, "Food", type="expense", date=sampleToday)` call. -/
def sampleDB : DB :=
  { transactions := [⟨600, "Food", "", "expense", sampleToday⟩]
  , categories := default_categories }

theorem mem_dedupFirstAux {α : Type} [DecidableEq α] (x : α) :
    ∀ (l seen : List α), x ∈ dedupFirstAux l seen ↔ x ∈ l ∧ x ∉ seen
  | [], seen => by simp [dedupFirstAux]
  | y :: xs, seen => by
    simp only [dedupFirstAux]
    by_cases hy : y ∈ seen
    · rw [if_pos hy, mem_dedupFirstAux x xs seen]
      constructor
      · exact fun h => ⟨List.mem_cons_of_mem _ h.1, h.2⟩
      · rintro ⟨h1, h2⟩
        rcases List.mem_cons.mp h1 with rfl | h
        · exact absurd hy h2
        · exact ⟨h, h2⟩
    · rw [if_neg hy]
      by_cases hxy : x = y
      · subst hxy
        simp [hy]
      · simp only [List.mem_cons, hxy, false_or,
          mem_dedupFirstAux x xs (y :: seen)]

theorem mem_dedupFirst {α : Type} [DecidableEq α] (x : α) (l : List α) :
    x ∈ dedupFirst l ↔ x ∈ l := by
  simp [dedupFirst, mem_dedupFirstAux]

theorem mem_insertSorted {α : Type} (le : α → α → Bool) (a x : α) :
    ∀ l : List α, x ∈ insertSorted le a l ↔ x = a ∨ x ∈ l
  | [] => by simp [insertSorted]
  | b :: xs => by
    simp only [insertSorted]
    by_cases h : le a b
    · rw [if_pos h]
      simp only [List.mem_cons]
    · rw [if_neg h]
      simp only [List.mem_cons, mem_insertSorted le a x xs]
      tauto

theorem mem_sortBy {α : Type} (le : α → α → Bool) (x : α) :
    ∀ l : List α, x ∈ sortBy le l ↔ x ∈ l
  | [] => Iff.rfl
  | a :: xs => by
    simp [sortBy, mem_insertSorted, mem_sortBy le x xs, List.mem_cons]

theorem pairwise_insertSorted {α : Type} (le : α → α → Bool)
    (htot : ∀ a b, le a b || le b a)
    (htr : ∀ a b c, le a b = true → le b c = true → le a c = true) (a : α) :
    ∀ l : List α, l.Pairwise (fun x y => le x y = true) →
      (insertSorted le a l).Pairwise (fun x y => le x y = true)
  | [], _ => by simp [insertSorted]
  | b :: xs, h => by
    rw [List.pairwise_cons] at h
    obtain ⟨hb, hxs⟩ := h
    simp only [insertSorted]
    by_cases hab : le a b = true
    · rw [if_pos hab]
      refine List.Pairwise.cons ?_ (List.Pairwise.cons hb hxs)
      intro y hy
      rcases List.mem_cons.mp hy with rfl | hy
      · exact hab
      · exact htr a b y hab (hb y hy)
    · rw [if_neg hab]
      refine List.Pairwise.cons ?_ (pairwise_insertSorted le htot htr a xs hxs)
      intro y hy
      rcases (mem_insertSorted le a y xs).mp hy with rfl | hy
      · have h2 := htot b y
        simp only [Bool.or_eq_true] at h2
        tauto
      · exact hb y hy

theorem pairwise_sortBy {α : Type} (le : α → α → Bool)
    (htot : ∀ a b, le a b || le b a)
    (htr : ∀ a b c, le a b = true → le b c = true → le a c = true) :
    ∀ l : List α, (sortBy le l).Pairwise (fun x y => le x y = true)
  | [] => List.Pairwise.nil
  | a :: xs => pairwise_insertSorted le htot htr a _ (pairwise_sortBy le htot htr xs)

theorem pairwise_sortBy_key {α : Type} (f : α → ℚ) (l : List α) :
    (sortBy (fun a b => decide (f b ≤ f a)) l).Pairwise (fun a b => f b ≤ f a) := by
  have h := pairwise_sortBy (fun a b => decide (f b ≤ f a))
    (fun a b => by
      simp only [Bool.or_eq_true, decide_eq_true_eq]
      exact le_total (f b) (f a))
    (fun a b c hab hbc => by
      simp only [decide_eq_true_eq] at hab hbc ⊢
      exact le_trans hbc hab) l
  exact h.imp (fun hxy => of_decide_eq_true hxy)

theorem flatMap_congr {α β : Type} (f g : α → List β) :
    ∀ l : List α, (∀ a ∈ l, f a = g a) → l.flatMap f = l.flatMap g
  | [], _ => rfl
  | a :: xs, h => by
    simp only [List.flatMap_cons]
    rw [h a (List.mem_cons_self a xs),
      flatMap_congr f g xs (fun b hb => h b (List.mem_cons_of_mem a hb))]

theorem date_le_refl (d : Date) : Date.le d d = true := by
  simp [Date.le]

theorem sumAmounts_append (l : List Transaction) (t : Transaction) :
    sumAmounts (l ++ [t]) = sumAmounts l + t.amount := by
  simp [sumAmounts]

theorem spendGrouped_mem_of_cat (db : DB) (sd : Date) (c : String)
    (hc : c ∈ (spendRows db sd).map Transaction.category) :
    (c, sumAmounts ((spendRows db sd).filter (fun t => t.category == c)),
     ((spendRows db sd).filter (fun t => t.category == c)).length) ∈ spendGrouped db sd := by
  unfold spendGrouped
  exact List.mem_map_of_mem _ ((mem_dedupFirst c _).mpr hc)

theorem mem_budgetCats (db : DB) (c : Category) :
    c ∈ budgetCats db ↔ c ∈ db.categories ∧ c.type = "expense" ∧ 0 < c.budget_limit := by
  simp [budgetCats, List.mem_filter, and_assoc]

theorem budgetJoined_fst_mem (db : DB) (ms : Date) (r : Category × Option Transaction)
    (h : r ∈ budgetJoined db ms) : r.1 ∈ budgetCats db := by
  unfold budgetJoined at h
  obtain ⟨c, hc, hr⟩ := List.mem_flatMap.mp h
  by_cases he : (db.transactions.filter (budgetJoinFilter c.name ms)).isEmpty
  · simp only [he, if_pos] at hr
    simp only [List.mem_singleton] at hr
    subst hr
    exact hc
  · simp only [he, if_neg, Bool.false_eq_true, not_false_iff] at hr
    obtain ⟨t, _, ht⟩ := List.mem_map.mp hr
    rw [← ht]
    exact hc

theorem budgetJoined_snd_spec (db : DB) (ms : Date) (r : Category × Option Transaction)
    (h : r ∈ budgetJoined db ms)
    (hempty : db.transactions.filter (budgetJoinFilter r.1.name ms) = []) :
    r.2 = none := by
  unfold budgetJoined at h
  obtain ⟨c, hc, hr⟩ := List.mem_flatMap.mp h
  by_cases he : (db.transactions.filter (budgetJoinFilter c.name ms)).isEmpty
  · simp only [he, if_pos] at hr
    simp only [List.mem_singleton] at hr
    subst hr
    rfl
  · simp only [he, if_neg, Bool.false_eq_true, not_false_iff] at hr
    obtain ⟨t, hmem, ht⟩ := List.mem_map.mp hr
    exfalso
    apply he
    have hname : c.name = r.1.name := by rw [← ht]
    rw [List.isEmpty_iff, hname, hempty]

theorem budgetJoined_key_mem (db : DB) (ms : Date) (c : Category)
    (hc : c ∈ budgetCats db) :
    (c.name, c.budget_limit) ∈ (budgetJoined db ms).map (fun r => (r.1.name, r.1.budget_limit)) := by
  unfold budgetJoined
  rcases hx : db.transactions.filter (budgetJoinFilter c.name ms) with _ | ⟨t, rest⟩
  · refine List.mem_map.mpr ⟨(c, none), ?_, rfl⟩
    refine List.mem_flatMap.mpr ⟨c, hc, ?_⟩
    simp [hx]
  · refine List.mem_map.mpr ⟨(c, some t), ?_, rfl⟩
    refine List.mem_flatMap.mpr ⟨c, hc, ?_⟩
    simp [hx]

theorem budgetGrouped_mem_of_key (db : DB) (ms : Date) (k : String × ℚ)
    (hk : k ∈ (budgetJoined db ms).map (fun r => (r.1.name, r.1.budget_limit))) :
    (k.1, k.2,
     (((budgetJoined db ms).filter
         (fun r => r.1.name == k.1 && r.1.budget_limit == k.2)).map joinedAmount).sum)
      ∈ budgetGrouped db ms := by
  unfold budgetGrouped
  exact List.mem_map_of_mem _ ((mem_dedupFirst k _).mpr hk)

theorem budgetGrouped_mem (db : DB) (ms : Date) (r : String × ℚ × ℚ)
    (h : r ∈ budgetGrouped db ms) :
    ∃ c ∈ db.categories, c.type = "expense" ∧ 0 < c.budget_limit ∧
      r.1 = c.name ∧ r.2.1 = c.budget_limit := by
  unfold budgetGrouped at h
  obtain ⟨k, hk, hr⟩ := List.mem_map.mp h
  have hk2 := (mem_dedupFirst k _).mp hk
  obtain ⟨j, hj, hjk⟩ := List.mem_map.mp hk2
  have hc := budgetJoined_fst_mem db ms j hj
  rw [mem_budgetCats] at hc
  refine ⟨j.1, hc.1, hc.2.1, hc.2.2, ?_, ?_⟩
  · rw [← hr]
    simp only [← hjk]
  · rw [← hr]
    simp only [← hjk]

/-- C2: for every database state reachable by any sequence of
`add_transaction` calls, the monthly summary satisfies
`balance = income - expense`, where income and expense are the current-month
totals per kind, each defaulting to 0 when no transaction of that kind exists
in the current month. -/
theorem C2_monthly_balance (db : DB) (now : Date) (_reach : Reachable db) :
    (get_monthly_summary db now).balance =
      (get_monthly_summary db now).income - (get_monthly_summary db now).expense ∧
    (db.transactions.filter (fun t => sameMonth t.date now && t.type == "income") = [] →
      (get_monthly_summary db now).income = 0) ∧
    (db.transactions.filter (fun t => sameMonth t.date now && t.type == "expense") = [] →
      (get_monthly_summary db now).expense = 0) := by
  refine ⟨rfl, ?_, ?_⟩
  · intro hf
    show monthlyTotal db now "income" = 0
    unfold monthlyTotal
    rw [hf]
    rfl
  · intro hf
    show monthlyTotal db now "expense" = 0
    unfold monthlyTotal
    rw [hf]
    rfl

theorem C2_monthly_balance_witness :
    (get_monthly_summary (setup_database emptyDB) sampleToday).balance =
      (get_monthly_summary (setup_database emptyDB) sampleToday).income -
        (get_monthly_summary (setup_database emptyDB) sampleToday).expense :=
  (C2_monthly_balance (setup_database emptyDB) sampleToday Reachable.init).1

/-- C3: the monthly summary has `savings_rate = 0` whenever the current-month
income total is 0 (and more generally whenever it is not positive, so the
division is never performed then), and `savings_rate = balance / income * 100`
whenever income is positive. -/
theorem C3_savings_rate (db : DB) (now : Date) :
    ((get_monthly_summary db now).income = 0 →
      (get_monthly_summary db now).savings_rate = 0) ∧
    (¬ 0 < (get_monthly_summary db now).income →
      (get_monthly_summary db now).savings_rate = 0) ∧
    (0 < (get_monthly_summary db now).income →
      (get_monthly_summary db now).savings_rate =
        (get_monthly_summary db now).balance / (get_monthly_summary db now).income * 100) := by
  refine ⟨?_, ?_, ?_⟩ <;> intro h <;> simp only [get_monthly_summary] at h ⊢
  · rw [h]
    norm_num
  · rw [if_neg h]
  · rw [if_pos h]

theorem C3_savings_rate_witness :
    (get_monthly_summary sampleDB sampleToday).savings_rate = 0 :=
  (C3_savings_rate sampleDB sampleToday).1 (by with_unfolding_all decide)

theorem spendRows_filter_self (ts : List Transaction) (cats : List Category) (sd : Date) :
    spendRows ⟨ts.filter (spendFilter sd), cats⟩ sd = spendRows ⟨ts, cats⟩ sd := by
  unfold spendRows
  show (ts.filter (spendFilter sd)).filter (spendFilter sd) = ts.filter (spendFilter sd)
  rw [List.filter_filter]
  apply List.filter_congr
  intro t _
  exact Bool.and_self _

/-- C4: `get_category_spending(days)` aggregates only expense transactions
dated on or after `today - days`: the result is unchanged when every other
transaction (income transactions and older expense transactions) is removed
from the table, so no such transaction is ever included. -/
theorem C4_spending_scope (ts : List Transaction) (cats : List Category)
    (today : Date) (days : Nat) :
    get_category_spending ⟨ts, cats⟩ today days =
      get_category_spending ⟨ts.filter (spendFilter (subDays today days)), cats⟩ today days := by
  unfold get_category_spending spendGrouped
  rw [spendRows_filter_self]

/-- C6: `setup_database` is idempotent: run twice from an empty store it
leaves exactly the 9 seeded categories with no duplicate names, and an
insert whose name already exists is silently ignored (no error path exists). -/
theorem C6_setup_idempotent :
    setup_database (setup_database emptyDB) = setup_database emptyDB ∧
    (setup_database emptyDB).categories.length = 9 ∧
    ((setup_database emptyDB).categories.map Category.name).Nodup ∧
    ∀ (cats : List Category) (c : Category),
      (∃ c0 ∈ cats, c0.name = c.name) → insertOrIgnore cats c = cats := by
  refine ⟨by with_unfolding_all decide, by with_unfolding_all decide,
    by with_unfolding_all decide, ?_⟩
  intro cats c h
  have hany : cats.any (fun c0 => c0.name == c.name) = true := by
    rw [List.any_eq_true]
    obtain ⟨c0, h0, hn⟩ := h
    exact ⟨c0, h0, by simp [hn]⟩
  simp [insertOrIgnore, hany]

theorem C6_setup_idempotent_witness :
    insertOrIgnore default_categories ⟨"Food", "expense", 999⟩ = default_categories := by
  apply C6_setup_idempotent.2.2.2
  exact ⟨⟨"Food", "expense", 500⟩, by with_unfolding_all decide, rfl⟩

/-- C8: a call to `add_transaction` with a type outside income/expense is
rejected by the table's CHECK constraint: the call surfaces the storage
engine's constraint failure unmodified and no row is inserted (no success
state exists); `add_transaction` itself performs no validation. -/
theorem C8_invalid_kind (db : DB) (amount : ℚ) (category description ttype : String)
    (date : Date) (h1 : ttype ≠ "income") (h2 : ttype ≠ "expense") :
    add_transaction db amount category description ttype date =
      Except.error "IntegrityError: CHECK constraint failed: type IN (income, expense)" ∧
    ∀ db' : DB, add_transaction db amount category description ttype date ≠ Except.ok db' := by
  have hb : (ttype == "income" || ttype == "expense") = false := by
    simp [h1, h2]
  constructor
  · unfold add_transaction
    rw [hb]
    rfl
  · intro db' hcontra
    unfold add_transaction at hcontra
    rw [hb] at hcontra
    simp at hcontra

theorem C8_invalid_kind_witness :
    add_transaction emptyDB 10 "Food" "" "transfer" sampleToday =
      Except.error "IntegrityError: CHECK constraint failed: type IN (income, expense)" :=
  (C8_invalid_kind emptyDB 10 "Food" "" "transfer" sampleToday
    (by decide) (by decide)).1

/-- C7: the list returned by `get_category_spending` is sorted by total amount
descending, and the list returned by `check_budgets` is sorted by
`spent / budget_limit` descending. -/
theorem C7_ordering (db : DB) (today now : Date) (days : Nat) :
    (get_category_spending db today days).Pairwise (fun a b => b.2.1 ≤ a.2.1) ∧
    (check_budgets db now).Pairwise
      (fun a b => b.spent / b.budget ≤ a.spent / a.budget) := by
  constructor
  · unfold get_category_spending
    exact pairwise_sortBy_key (fun r : String × ℚ × Nat => r.2.1) _
  · unfold check_budgets
    rw [List.pairwise_map]
    have h := pairwise_sortBy_key (fun r : String × ℚ × ℚ => r.2.2 / r.2.1)
      (budgetGrouped db (monthStart now))
    exact h.imp (fun hxy => hxy)

/-- C10: the date lower bound of `get_category_spending` is inclusive: an
expense transaction dated exactly `today - days` contributes a row for its
category (the SQL filter is `date >= start_date`, not a strict inequality). -/
theorem C10_inclusive_lower_bound (db : DB) (today : Date) (days : Nat) (t : Transaction)
    (ht : t ∈ db.transactions) (hty : t.type = "expense")
    (hdate : t.date = subDays today days) :
    t.category ∈ (get_category_spending db today days).map (fun r => r.1) := by
  have hf : spendFilter (subDays today days) t = true := by
    simp [spendFilter, hty, hdate, date_le_refl]
  have hrow : t ∈ spendRows db (subDays today days) :=
    List.mem_filter.mpr ⟨ht, hf⟩
  have hc : t.category ∈ (spendRows db (subDays today days)).map Transaction.category :=
    List.mem_map_of_mem _ hrow
  have hg := spendGrouped_mem_of_cat db (subDays today days) t.category hc
  unfold get_category_spending
  exact List.mem_map.mpr ⟨_, (mem_sortBy _ _ _).mpr hg, rfl⟩

/-- Concrete database used by the C10 witness: one expense transaction dated
exactly 30 days before `sampleToday`. -/
def sampleBoundaryDB : DB :=
  { transactions := [⟨50, "Transport", "", "expense", ⟨2026, 9, 12⟩⟩]
  , categories := default_categories }

theorem C10_inclusive_lower_bound_witness :
    "Transport" ∈ (get_category_spending sampleBoundaryDB sampleToday 30).map (fun r => r.1) :=
  C10_inclusive_lower_bound sampleBoundaryDB sampleToday 30
    ⟨50, "Transport", "", "expense", ⟨2026, 9, 12⟩⟩
    (by with_unfolding_all decide) rfl (by with_unfolding_all decide)

/-- C1: every row of `check_budgets` has a positive budget,
`percentage = spent / budget * 100`, and a status classified by the
thresholds (over 100 OVER BUDGET, over 80 up to 100 NEAR LIMIT, at most 80
OK); and in the concrete scenario (seed the 9 default categories, add one
expense of 600 under Food dated today) the result contains the row
(Food, 500, 600, 120.0, OVER BUDGET). -/
theorem C1_budget_status :
    (∀ (db : DB) (now : Date), ∀ row ∈ check_budgets db now,
      0 < row.budget ∧
      row.percentage = row.spent / row.budget * 100 ∧
      (100 < row.percentage → row.status = "OVER BUDGET") ∧
      (80 < row.percentage → row.percentage ≤ 100 → row.status = "NEAR LIMIT") ∧
      (row.percentage ≤ 80 → row.status = "OK")) ∧
    (∃ db : DB,
      add_transaction (setup_database emptyDB) 600 "Food" "" "expense" sampleToday =
        Except.ok db ∧
      (⟨"Food", 500, 600, 120, "OVER BUDGET"⟩ : BudgetRow) ∈ check_budgets db sampleToday) := by
  constructor
  · intro db now row hrow
    unfold check_budgets at hrow
    obtain ⟨r, hr, hrw⟩ := List.mem_map.mp hrow
    have hrg := (mem_sortBy _ _ _).mp hr
    obtain ⟨c, _, _, hcb, _, hr2⟩ := budgetGrouped_mem db (monthStart now) r hrg
    have hpos : (0 : ℚ) < r.2.1 := by
      rw [hr2]
      exact hcb
    subst hrw
    simp only [budgetRowOf]
    rw [if_pos hpos]
    refine ⟨hpos, rfl, ?_, ?_, ?_⟩
    · intro hp
      unfold classifyPercent
      rw [if_pos hp]
    · intro hp1 hp2
      unfold classifyPercent
      rw [if_neg (not_lt.mpr hp2), if_pos hp1]
    · intro hp
      unfold classifyPercent
      rw [if_neg (not_lt.mpr (le_trans hp (by norm_num))),
        if_neg (not_lt.mpr hp)]
  · exact ⟨sampleDB, by with_unfolding_all decide, by with_unfolding_all decide⟩

theorem C1_budget_status_witness :
    (⟨"Food", 500, 600, 120, "OVER BUDGET"⟩ : BudgetRow).percentage =
      (⟨"Food", 500, 600, 120, "OVER BUDGET"⟩ : BudgetRow).spent /
        (⟨"Food", 500, 600, 120, "OVER BUDGET"⟩ : BudgetRow).budget * 100 ∧
    (⟨"Food", 500, 600, 120, "OVER BUDGET"⟩ : BudgetRow).status = "OVER BUDGET" := by
  have h := C1_budget_status.1 sampleDB sampleToday
    ⟨"Food", 500, 600, 120, "OVER BUDGET"⟩ (by with_unfolding_all decide)
  exact ⟨h.2.1, h.2.2.1 (by norm_num)⟩

/-- C5: `check_budgets` never returns an entry for a category with
`budget_limit = 0` or of income kind (every row comes from an expense
category with positive budget), and conversely every expense category with
positive budget yields a row, whose spent total defaults to 0 when no
transaction matches the join condition for that category this month. -/
theorem C5_budget_row_domain (db : DB) (now : Date) :
    (∀ row ∈ check_budgets db now, ∃ c ∈ db.categories,
      row.category = c.name ∧ row.budget = c.budget_limit ∧
      c.type = "expense" ∧ 0 < c.budget_limit) ∧
    (∀ c ∈ db.categories, c.type = "expense" → 0 < c.budget_limit →
      ∃ row ∈ check_budgets db now,
        row.category = c.name ∧ row.budget = c.budget_limit ∧
        (db.transactions.filter (budgetJoinFilter c.name (monthStart now)) = [] →
          row.spent = 0)) := by
  constructor
  · intro row hrow
    unfold check_budgets at hrow
    obtain ⟨r, hr, hrw⟩ := List.mem_map.mp hrow
    have hrg := (mem_sortBy _ _ _).mp hr
    obtain ⟨c, hc, hcty, hcb, hr1, hr2⟩ := budgetGrouped_mem db (monthStart now) r hrg
    refine ⟨c, hc, ?_, ?_, hcty, hcb⟩
    · rw [← hrw]
      simp only [budgetRowOf]
      exact hr1
    · rw [← hrw]
      simp only [budgetRowOf]
      exact hr2
  · intro c hc hcty hcb
    have hcat : c ∈ budgetCats db := (mem_budgetCats db c).mpr ⟨hc, hcty, hcb⟩
    have hkey := budgetJoined_key_mem db (monthStart now) c hcat
    have hg := budgetGrouped_mem_of_key db (monthStart now) (c.name, c.budget_limit) hkey
    refine ⟨budgetRowOf (c.name, c.budget_limit,
        (((budgetJoined db (monthStart now)).filter
            (fun r => r.1.name == c.name && r.1.budget_limit == c.budget_limit)).map
          joinedAmount).sum), ?_, rfl, rfl, ?_⟩
    · unfold check_budgets
      exact List.mem_map.mpr ⟨_, (mem_sortBy _ _ _).mpr hg, rfl⟩
    · intro hempty
      show (((budgetJoined db (monthStart now)).filter
          (fun r => r.1.name == c.name && r.1.budget_limit == c.budget_limit)).map
        joinedAmount).sum = 0
      apply List.sum_eq_zero
      intro x hx
      obtain ⟨rr, hrr, hxr⟩ := List.mem_map.mp hx
      have hrr2 := List.mem_filter.mp hrr
      have hrrname : rr.1.name = c.name := by
        have := hrr2.2
        simp only [Bool.and_eq_true, beq_iff_eq] at this
        exact this.1
      have hnone : rr.2 = none := by
        apply budgetJoined_snd_spec db (monthStart now) rr hrr2.1
        rw [hrrname, hempty]
      rw [← hxr]
      simp [joinedAmount, hnone]

theorem C5_budget_row_domain_witness :
    ∃ row ∈ check_budgets sampleDB sampleToday,
      row.category = "Rent" ∧ row.budget = 1200 ∧ row.spent = 0 := by
  obtain ⟨row, hmem, h1, h2, h3⟩ :=
    (C5_budget_row_domain sampleDB sampleToday).2 ⟨"Rent", "expense", 1200⟩
      (by with_unfolding_all decide) rfl (by with_unfolding_all decide)
  exact ⟨row, hmem, h1, h2, h3 (by with_unfolding_all decide)⟩

/-- C9: an expense transaction whose category string matches no category name
is invisible to `check_budgets` (appending it leaves the result unchanged),
yet is counted in the totals of `get_monthly_summary` (when dated in the
current month) and of `get_category_spending` (when dated in the lookback
window: its category gets a row whose total and count include it). -/
theorem C9_unseeded_category (ts : List Transaction) (cats : List Category)
    (t : Transaction) (now today : Date) (days : Nat)
    (hty : t.type = "expense")
    (hname : ∀ c ∈ cats, c.name ≠ t.category) :
    check_budgets ⟨ts ++ [t], cats⟩ now = check_budgets ⟨ts, cats⟩ now ∧
    (sameMonth t.date now = true →
      (get_monthly_summary ⟨ts ++ [t], cats⟩ now).expense =
        (get_monthly_summary ⟨ts, cats⟩ now).expense + t.amount) ∧
    (Date.le (subDays today days) t.date = true →
      ∃ row ∈ get_category_spending ⟨ts ++ [t], cats⟩ today days,
        row.1 = t.category ∧
        row.2.1 = sumAmounts ((spendRows ⟨ts, cats⟩ (subDays today days)).filter
            (fun t0 => t0.category == t.category)) + t.amount ∧
        row.2.2 = ((spendRows ⟨ts, cats⟩ (subDays today days)).filter
            (fun t0 => t0.category == t.category)).length + 1) := by
  refine ⟨?_, ?_, ?_⟩
  · have hj : budgetJoined ⟨ts ++ [t], cats⟩ (monthStart now) =
        budgetJoined ⟨ts, cats⟩ (monthStart now) := by
      unfold budgetJoined
      have hcats : budgetCats ⟨ts ++ [t], cats⟩ = budgetCats ⟨ts, cats⟩ := rfl
      rw [hcats]
      apply flatMap_congr
      intro c hc
      have hcn : c.name ≠ t.category :=
        hname c ((mem_budgetCats ⟨ts, cats⟩ c).mp hc).1
      have hft : budgetJoinFilter c.name (monthStart now) t = false := by
        have h1 : (t.category == c.name) = false := by
          simp only [beq_eq_false_iff_ne, ne_eq]
          exact fun h => hcn h.symm
        simp [budgetJoinFilter, h1]
      have hfe : (⟨ts ++ [t], cats⟩ : DB).transactions.filter
            (budgetJoinFilter c.name (monthStart now)) =
          (⟨ts, cats⟩ : DB).transactions.filter
            (budgetJoinFilter c.name (monthStart now)) := by
        show (ts ++ [t]).filter _ = ts.filter _
        rw [List.filter_append]
        simp [hft]
      simp only [hfe]
    unfold check_budgets budgetGrouped
    rw [hj]
  · intro hm
    show monthlyTotal ⟨ts ++ [t], cats⟩ now "expense" =
      monthlyTotal ⟨ts, cats⟩ now "expense" + t.amount
    unfold monthlyTotal
    show sumAmounts ((ts ++ [t]).filter _) = sumAmounts (ts.filter _) + t.amount
    have hpt : (sameMonth t.date now && t.type == "expense") = true := by
      simp [hm, hty]
    rw [List.filter_append]
    simp only [List.filter_cons, hpt, if_pos, List.filter_nil]
    exact sumAmounts_append _ t
  · intro hd
    have hft : spendFilter (subDays today days) t = true := by
      simp [spendFilter, hty, hd]
    have hrows : spendRows ⟨ts ++ [t], cats⟩ (subDays today days) =
        spendRows ⟨ts, cats⟩ (subDays today days) ++ [t] := by
      unfold spendRows
      show (ts ++ [t]).filter _ = ts.filter _ ++ [t]
      rw [List.filter_append]
      simp [hft]
    have hc : t.category ∈
        (spendRows ⟨ts ++ [t], cats⟩ (subDays today days)).map Transaction.category := by
      rw [hrows]
      simp
    have hg := spendGrouped_mem_of_cat ⟨ts ++ [t], cats⟩ (subDays today days) t.category hc
    refine ⟨(t.category,
        sumAmounts ((spendRows ⟨ts ++ [t], cats⟩ (subDays today days)).filter
          (fun t0 => t0.category == t.category)),
        ((spendRows ⟨ts ++ [t], cats⟩ (subDays today days)).filter
          (fun t0 => t0.category == t.category)).length), ?_, rfl, ?_, ?_⟩
    · show _ ∈ get_category_spending ⟨ts ++ [t], cats⟩ today days
      unfold get_category_spending
      exact (mem_sortBy _ _ _).mpr hg
    · show sumAmounts ((spendRows ⟨ts ++ [t], cats⟩ (subDays today days)).filter
          (fun t0 => t0.category == t.category)) = _
      rw [hrows, List.filter_append]
      simp only [List.filter_cons, beq_self_eq_true, if_pos, List.filter_nil]
      exact sumAmounts_append _ t
    · show ((spendRows ⟨ts ++ [t], cats⟩ (subDays today days)).filter
          (fun t0 => t0.category == t.category)).length = _
      rw [hrows, List.filter_append]
      simp

/-- Concrete expense transaction under a category name that matches none of
the seeded categories, used by the C9 witness. -/
def unseededT : Transaction := ⟨77, "Crypto", "", "expense", sampleToday⟩

theorem C9_unseeded_category_witness :
    check_budgets ⟨[unseededT], default_categories⟩ sampleToday =
      check_budgets ⟨[], default_categories⟩ sampleToday ∧
    (get_monthly_summary ⟨[unseededT], default_categories⟩ sampleToday).expense =
      (get_monthly_summary ⟨[], default_categories⟩ sampleToday).expense +
        unseededT.amount := by
  have h := C9_unseeded_category [] default_categories unseededT sampleToday sampleToday 30
    rfl (by with_unfolding_all decide)
  exact ⟨h.1, h.2.1 (by with_unfolding_all decide)⟩
